import Mathlib

/-!
Verification of the transcript-caching service in `app.py`.

The Python source is shallowly embedded: each function of the source is
translated into a Lean definition over explicit data (parsed URLs, caption
fragments, database rows, HTTP outcomes).  External effects (the caption
fetch, the metadata HTTP call, the clock) are passed in as explicit values,
so that the request handler becomes a pure state transformer on the
database.  Python string primitives are given executable structural
definitions over the character list of a `String`.
-/

namespace App

/-! ### Python string primitives -/

/-- Python's `s.lstrip('/')`: remove every leading `'/'` character. -/
def pyLstripSlash (s : String) : String :=
  String.mk (s.data.dropWhile (fun c => c == '/'))

/-- Python's `s.startswith(p)`. -/
def pyStartsWith (s p : String) : Bool :=
  p.data.isPrefixOf s.data

/-- Splitting a character list at every occurrence of `c` (Python's
`str.split` with an explicit one-character separator: `"".split('/') = ['']`,
separators at the ends produce empty pieces). -/
def splitOnChar (c : Char) : List Char → List (List Char)
  | [] => [[]]
  | x :: xs =>
    if x == c then
      [] :: splitOnChar c xs
    else
      match splitOnChar c xs with
      | [] => [[x]]
      | g :: gs => (x :: g) :: gs

/-- Python's `s.split('/')`. -/
def pySplitSlash (s : String) : List String :=
  (splitOnChar '/' s.data).map String.mk

/-- Python's `sep.join(pieces)`. -/
def pyJoin (sep : String) : List String → String
  | [] => ""
  | [x] => x
  | x :: y :: xs => x ++ sep ++ pyJoin sep (y :: xs)

/-- Python's `s.strip()`: whitespace removed from both ends. -/
def pyStrip (s : String) : String :=
  String.mk
    (((s.data.dropWhile Char.isWhitespace).reverse.dropWhile
      Char.isWhitespace).reverse)

/-- Python's `len(s)` (a character count, as in Python). -/
def pyLen (s : String) : Nat :=
  s.data.length

/-! ### Identifier extraction -/

/-- Result of Python's `urlparse` on the request URL: the (lowercased)
hostname, the path, and the query string already run through `parse_qs`,
kept as the ordered list of `key=value` pairs with non-blank values. -/
structure ParsedUrl where
  hostname : Option String
  path : String
  query : List (String × String)
deriving DecidableEq, Repr

/-- Python's `parse_qs(query)['v'][0]`: the first value carried by key
`"v"`; `KeyError` when the key is absent. -/
def firstQueryV (query : List (String × String)) : Except String String :=
  match query.filter (fun p => p.1 == "v") with
  | [] => .error "KeyError: v"
  | p :: _ => .ok p.2

/-- Python's `l[i]` on a list of strings: `IndexError` when out of range. -/
def pyIndex (l : List String) (i : Nat) : Except String String :=
  match l.get? i with
  | some x => .ok x
  | none => .error "IndexError"

/-- `get_video_id` from `app.py` (lines 107-122), on the parsed URL.
`ValueError("Invalid YouTube URL")` becomes `.error "Invalid YouTube URL"`. -/
def get_video_id (u : ParsedUrl) : Except String String :=
  if u.hostname == some "youtu.be" || u.hostname == some "www.youtu.be" then
    .ok (pyLstripSlash u.path)
  else if u.hostname == some "youtube.com" || u.hostname == some "www.youtube.com" then
    if u.path == "/watch" then
      firstQueryV u.query
    else if pyStartsWith u.path "/embed/" || pyStartsWith u.path "/v/" then
      pyIndex (pySplitSlash u.path) 2
    else
      .error "Invalid YouTube URL"
  else
    .error "Invalid YouTube URL"

/-! ### Transcript formatting -/

/-- One caption fragment: start offset in seconds (fractional allowed) and
its text, as produced by the caption-fetch collaborator. -/
structure Caption where
  start : ℚ
  text : String
deriving DecidableEq, Repr

/-- Python's `divmod(a, b)` on numbers: `(a // b, a % b)` with floor
division, so `(⌊a / b⌋, a - b * ⌊a / b⌋)`. -/
def pyDivmod (a b : ℚ) : ℚ × ℚ :=
  ((⌊a / b⌋ : ℤ), a - b * (⌊a / b⌋ : ℤ))

/-- Python's `int(x)` on a number: truncation toward zero. -/
def pyInt (q : ℚ) : ℤ :=
  if 0 ≤ q then ⌊q⌋ else ⌈q⌉

/-- Python's `f"{n:02}"`: decimal rendering left-padded with `0` to width 2. -/
def pyFmt02 (n : ℤ) : String :=
  if 0 ≤ n ∧ n < 10 then "0" ++ toString n else toString n

/-- `format_transcript_with_timestamps` from `app.py` (lines 124-141):
each entry is rendered as `[HH:MM:SS] text` using the `divmod` chain of the
source, and the lines are joined with `"\n"`. -/
def format_transcript_with_timestamps (transcript : List Caption) : String :=
  pyJoin "\n"
    (transcript.map (fun entry =>
      let d1 := pyDivmod entry.start 3600
      let d2 := pyDivmod d1.2 60
      let timestamp :=
        pyFmt02 (pyInt d1.1) ++ ":" ++ pyFmt02 (pyInt d2.1) ++ ":" ++ pyFmt02 (pyInt d2.2)
      "[" ++ timestamp ++ "] " ++ entry.text))

/-! ### Persistence store -/

/-- One row of the `videos` table (`init_db`, lines 42-49); the
autoincrement surrogate key is the position in the list. -/
structure VideoRow where
  video_id : String
  url : String
  title : String
  description : String
  transcript : String
  processed_at : Nat
deriving DecidableEq, Repr

/-- `insert_video_data` from `app.py` (lines 54-64): `INSERT OR REPLACE`
keyed by the `UNIQUE video_id` column deletes any conflicting row and
appends the fresh one (the replacement gets a new rowid, hence scan-last). -/
def insert_video_data (db : List VideoRow)
    (video_id url title description transcript : String) (now : Nat) :
    List VideoRow :=
  db.filter (fun r => r.video_id != video_id) ++
    [⟨video_id, url, title, description, transcript, now⟩]

/-- The projection returned by `get_video_from_db`. -/
structure DBResult where
  title : String
  description : String
  transcript : String
deriving DecidableEq, Repr

/-- `get_video_from_db` from `app.py` (lines 66-77): first row whose
`video_id` matches, projected to title/description/transcript, `None` when
absent. -/
def get_video_from_db (db : List VideoRow) (video_id : String) :
    Option DBResult :=
  (db.find? (fun r => r.video_id == video_id)).map
    (fun r => ⟨r.title, r.description, r.transcript⟩)

/-! ### Metadata fetch -/

/-- Title/description pair, both as returned by the metadata fetch and as
the `snippet` object inside a successful API response. -/
structure MetaInfo where
  title : String
  description : String
deriving DecidableEq, Repr

/-- The decoded body of the metadata API response: HTTP status code and the
`items` array (`none` when the `items` key is absent). -/
structure HttpResponse where
  status_code : Nat
  items : Option (List MetaInfo)
deriving DecidableEq, Repr

/-- `get_video_description` from `app.py` (lines 79-105).
`cfg` is `config.get("YOUTUBE_KEY")`; `http` is the outcome of
`requests.get`, `.error` when the request itself raises an exception.  The
`try/except` of the source covers only the credential lookup and the
length assertion, so a raised request error propagates as `.error`. -/
def get_video_description (cfg : Option String)
    (http : Except String HttpResponse) : Except String MetaInfo :=
  match cfg with
  | none => .ok ⟨"not available", "not available"⟩
  | some api_key =>
    if pyLen api_key ≤ 10 then
      .ok ⟨"not available", "not available"⟩
    else
      match http with
      | .error e => .error e
      | .ok response =>
        if response.status_code = 200 then
          match response.items with
          | some (s :: _) => .ok ⟨s.title, s.description⟩
          | _ => .ok ⟨"NaN", "NaN"⟩
        else
          .ok ⟨"NaN", "NaN"⟩

/-! ### Request handler -/

/-- The `POST /get_transcript/` handler from `app.py` (lines 176-222), as a
pure transformer: given the database, the parsed URL, the raw URL string,
and the outcomes of the two external calls, it returns the HTTP result
(`.ok` transcript payload or `.error` detail string) together with the
database after the request. -/
def get_transcript (db : List VideoRow) (u : ParsedUrl) (origUrl : String)
    (fetchT : Except String (List Caption)) (cfg : Option String)
    (http : Except String HttpResponse) (now : Nat) :
    Except String String × List VideoRow :=
  match get_video_id u with
  | .error e => (.error ("Failed to obtain transcript: " ++ e), db)
  | .ok video_id =>
    match get_video_from_db db video_id with
    | some existing_data => (.ok existing_data.transcript, db)
    | none =>
      match fetchT with
      | .error e => (.error ("Failed to obtain transcript: " ++ e), db)
      | .ok transcript =>
        match get_video_description cfg http with
        | .error e => (.error ("Failed to obtain transcript: " ++ e), db)
        | .ok metainfo =>
          let formatted := format_transcript_with_timestamps transcript
          if pyLen formatted ≤ 500 then
            (.error "Failed to obtain transcript: Transcript too short!", db)
          else
            let marked := formatted ++ "\nEND_OF_TRANSCRIPT"
            let output := "Title: " ++ pyStrip metainfo.title ++ "\n\n" ++ marked
            (.ok output,
              insert_video_data db video_id origUrl metainfo.title
                metainfo.description output now)

end App
namespace App

/-! ### Store lemmas -/

lemma find?_insert_self (db : List VideoRow)
    (video_id url title description transcript : String) (now : Nat) :
    (insert_video_data db video_id url title description transcript now).find?
      (fun r => r.video_id == video_id) =
      some ⟨video_id, url, title, description, transcript, now⟩ := by
  unfold insert_video_data
  rw [List.find?_append]
  have h1 : (db.filter fun r => r.video_id != video_id).find?
      (fun r => r.video_id == video_id) = none := by
    rw [List.find?_eq_none]
    intro x hx
    have hmem := List.mem_filter.mp hx
    simpa using hmem.2
  rw [h1]
  simp

/-- C7: writing a record with `insert_video_data` and reading it back with
`get_video_from_db` under the same `video_id` returns exactly the stored
title, description and transcript. -/
theorem insert_then_lookup (db : List VideoRow)
    (video_id url title description transcript : String) (now : Nat) :
    get_video_from_db
        (insert_video_data db video_id url title description transcript now)
        video_id =
      some ⟨title, description, transcript⟩ := by
  unfold get_video_from_db
  rw [find?_insert_self]
  rfl

/-- A sequence of `insert_video_data` calls, each row supplying the
arguments of one call. -/
def runInserts : List VideoRow → List VideoRow → List VideoRow
  | db, [] => db
  | db, r :: rs =>
      runInserts
        (insert_video_data db r.video_id r.url r.title r.description
          r.transcript r.processed_at) rs

lemma insert_video_data_pairwise (db : List VideoRow)
    (video_id url title description transcript : String) (now : Nat)
    (h : db.Pairwise (fun a b => a.video_id ≠ b.video_id)) :
    (insert_video_data db video_id url title description transcript now).Pairwise
      (fun a b => a.video_id ≠ b.video_id) := by
  unfold insert_video_data
  rw [List.pairwise_append]
  refine ⟨h.sublist (List.filter_sublist db), List.pairwise_singleton _ _, ?_⟩
  intro a ha b hb
  have hmem := List.mem_filter.mp ha
  have hb1 : b = (⟨video_id, url, title, description, transcript, now⟩ : VideoRow) := by
    simpa using hb
  subst hb1
  simpa using hmem.2

/-- C8: starting from the empty `videos` table, after any sequence of
`insert_video_data` calls no two rows share a `video_id`: the upsert
replaces rather than duplicates. -/
theorem runInserts_video_id_unique (ops : List VideoRow) :
    (runInserts [] ops).Pairwise (fun a b => a.video_id ≠ b.video_id) := by
  suffices h : ∀ db, db.Pairwise (fun a b => a.video_id ≠ b.video_id) →
      (runInserts db ops).Pairwise (fun a b => a.video_id ≠ b.video_id) from
    h [] (List.Pairwise.nil)
  induction ops with
  | nil => intro db hdb; exact hdb
  | cons r rs ih =>
      intro db hdb
      exact ih _ (insert_video_data_pairwise db _ _ _ _ _ _ hdb)

/-- C9: `get_video_id` does not always fail on identifier-less URLs: the
short-link host with path `"/"` and the canonical host with path
`"/embed/"` both extract the empty-string identifier instead of raising
`Invalid YouTube URL`. -/
theorem getVideoId_empty_identifier :
    get_video_id ⟨some "youtu.be", "/", []⟩ = .ok "" ∧
      get_video_id ⟨some "youtube.com", "/embed/", []⟩ = .ok "" :=
  ⟨rfl, rfl⟩

end App
namespace App

/-! ### Identifier-extraction lemmas -/

lemma firstQueryV_eq_lookup (q : List (String × String)) :
    firstQueryV q =
      match q.lookup "v" with
      | some v => .ok v
      | none => .error "KeyError: v" := by
  induction q with
  | nil => rfl
  | cons p ps ih =>
      unfold firstQueryV
      rcases p with ⟨k, v⟩
      by_cases hk : k = "v"
      · subst hk
        simp [List.filter_cons, List.lookup]
      · simp only [List.filter_cons, List.lookup]
        have h1 : (("v" : String) == k) = false := by
          simpa using fun h => hk h.symm
        have h2 : ((k : String) == "v") = false := by simpa using hk
        rw [h1, h2]
        simpa [firstQueryV] using ih

lemma splitOnChar_ne_nil (c : Char) (l : List Char) : splitOnChar c l ≠ [] := by
  induction l with
  | nil => simp [splitOnChar]
  | cons x xs ih =>
      unfold splitOnChar
      cases hx : (x == c)
      · cases h : splitOnChar c xs with
        | nil => exact absurd h ih
        | cons g gs => simp [hx, h]
      · simp [hx]

lemma splitOnChar_length (c : Char) (l : List Char) :
    (splitOnChar c l).length = l.count c + 1 := by
  induction l with
  | nil => simp [splitOnChar]
  | cons x xs ih =>
      unfold splitOnChar
      cases hx : (x == c)
      · have hxc : ¬ x = c := by simpa using hx
        cases h : splitOnChar c xs with
        | nil => exact absurd h (splitOnChar_ne_nil c xs)
        | cons g gs =>
            rw [h] at ih
            simp only [List.length_cons] at ih
            simp [hx, h, List.count_cons, hxc, ih]
      · have hxc : x = c := by simpa using hx
        simp [hx, ih, List.count_cons, hxc]

lemma pySplitSlash_len_ge (s : String) (p : String)
    (hp : pyStartsWith s p = true) :
    p.data.count '/' + 1 ≤ (pySplitSlash s).length := by
  unfold pySplitSlash
  rw [List.length_map, splitOnChar_length]
  have hpre : p.data <+: s.data := by
    unfold pyStartsWith at hp
    exact List.isPrefixOf_iff_prefix.mp hp
  have := hpre.sublist.count_le '/'
  omega

/-- C2: the full case analysis of `get_video_id`: short-link hosts return
the path with its leading slashes stripped; canonical hosts with path
`/watch` return the first value of the `v` query parameter and fail when it
is absent; canonical hosts with a path beginning `/embed/` or `/v/` return
the segment at index 2 of the slash-split path; every other host, and a
recognized host with any other path shape, fails with the
`Invalid YouTube URL` error. -/
theorem getVideoId_cases (u : ParsedUrl) :
    ((u.hostname = some "youtu.be" ∨ u.hostname = some "www.youtu.be") →
      get_video_id u = .ok (pyLstripSlash u.path)) ∧
    ((u.hostname = some "youtube.com" ∨ u.hostname = some "www.youtube.com") →
      (u.path = "/watch" →
        (∀ v, u.query.lookup "v" = some v → get_video_id u = .ok v) ∧
        (u.query.lookup "v" = none → ∃ e, get_video_id u = .error e)) ∧
      ((pyStartsWith u.path "/embed/" = true ∨ pyStartsWith u.path "/v/" = true) →
        ∃ seg, (pySplitSlash u.path).get? 2 = some seg ∧
          get_video_id u = .ok seg) ∧
      (u.path ≠ "/watch" → pyStartsWith u.path "/embed/" = false →
        pyStartsWith u.path "/v/" = false →
        get_video_id u = .error "Invalid YouTube URL")) ∧
    (u.hostname ≠ some "youtu.be" → u.hostname ≠ some "www.youtu.be" →
      u.hostname ≠ some "youtube.com" → u.hostname ≠ some "www.youtube.com" →
      get_video_id u = .error "Invalid YouTube URL") := by
  refine ⟨?_, ?_, ?_⟩
  · intro h
    rcases h with h | h <;> simp [get_video_id, h]
  · intro hc
    have hshort1 : u.hostname ≠ some "youtu.be" := by
      rcases hc with h | h <;> simp [h]
    have hshort2 : u.hostname ≠ some "www.youtu.be" := by
      rcases hc with h | h <;> simp [h]
    refine ⟨?_, ?_, ?_⟩
    · intro hpath
      constructor
      · intro v hv
        rcases hc with h | h <;>
          simp [get_video_id, h, hshort1, hshort2, hpath, firstQueryV_eq_lookup, hv]
      · intro hv
        refine ⟨"KeyError: v", ?_⟩
        rcases hc with h | h <;>
          simp [get_video_id, h, hshort1, hshort2, hpath, firstQueryV_eq_lookup, hv]
    · intro hstart
      have hwatch : u.path ≠ "/watch" := by
        intro hp
        rw [hp] at hstart
        rcases hstart with h | h <;> exact absurd h (by decide)
      have hcount : 2 < (pySplitSlash u.path).length := by
        rcases hstart with h | h
        · have := pySplitSlash_len_ge u.path "/embed/" h
          have h2 : ("/embed/").data.count '/' = 2 := by decide
          omega
        · have := pySplitSlash_len_ge u.path "/v/" h
          have h2 : ("/v/").data.count '/' = 2 := by decide
          omega
      obtain ⟨seg, hseg⟩ : ∃ seg, (pySplitSlash u.path)[2]? = some seg := by
        rw [List.getElem?_eq_getElem hcount]
        exact ⟨_, rfl⟩
      have hseg2 : (pySplitSlash u.path).get? 2 = some seg := by
        rw [List.get?_eq_getElem?]
        exact hseg
      refine ⟨seg, hseg2, ?_⟩
      have hsb : (pyStartsWith u.path "/embed/" || pyStartsWith u.path "/v/") = true := by
        rcases hstart with h | h <;> simp [h]
      rcases hc with h | h <;>
        simp [get_video_id, h, hshort1, hshort2, hwatch, hsb, pyIndex, hseg]
    · intro hwatch h1 h2
      rcases hc with h | h <;>
        simp [get_video_id, h, hshort1, hshort2, hwatch, h1, h2]
  · intro h1 h2 h3 h4
    simp [get_video_id, h1, h2, h3, h4]

/-- Witness for C2: the branches of `getVideoId_cases` exercised at the
concrete URLs `youtu.be/abc123`, `www.youtube.com/watch?v=aQ4yQXeB1Ss`,
`youtube.com/watch` without `v`, `youtube.com/embed/dQw4w9WgXcQ`,
`youtube.com/other`, and `vimeo.com/watch?v=x`. -/
theorem getVideoId_cases_witness :
    get_video_id ⟨some "youtu.be", "/abc123", []⟩ = .ok "abc123" ∧
    get_video_id ⟨some "www.youtube.com", "/watch", [("v", "aQ4yQXeB1Ss")]⟩ =
      .ok "aQ4yQXeB1Ss" ∧
    (∃ e, get_video_id ⟨some "youtube.com", "/watch", []⟩ = .error e) ∧
    (∃ seg, (pySplitSlash "/embed/dQw4w9WgXcQ").get? 2 = some seg ∧
      get_video_id ⟨some "youtube.com", "/embed/dQw4w9WgXcQ", []⟩ = .ok seg) ∧
    get_video_id ⟨some "youtube.com", "/other", []⟩ = .error "Invalid YouTube URL" ∧
    get_video_id ⟨some "vimeo.com", "/watch", [("v", "x")]⟩ =
      .error "Invalid YouTube URL" :=
  ⟨(getVideoId_cases ⟨some "youtu.be", "/abc123", []⟩).1 (Or.inl rfl),
    (((getVideoId_cases
        ⟨some "www.youtube.com", "/watch", [("v", "aQ4yQXeB1Ss")]⟩).2.1
      (Or.inr rfl)).1 rfl).1 _ rfl,
    (((getVideoId_cases ⟨some "youtube.com", "/watch", []⟩).2.1
      (Or.inl rfl)).1 rfl).2 rfl,
    ((getVideoId_cases ⟨some "youtube.com", "/embed/dQw4w9WgXcQ", []⟩).2.1
      (Or.inl rfl)).2.1 (Or.inl (by decide)),
    ((getVideoId_cases ⟨some "youtube.com", "/other", []⟩).2.1
      (Or.inl rfl)).2.2 (by decide) (by decide) (by decide),
    (getVideoId_cases ⟨some "vimeo.com", "/watch", [("v", "x")]⟩).2.2
      (by decide) (by decide) (by decide) (by decide)⟩

end App
namespace App

/-! ### Formatter lemmas -/

lemma floor_div_natCast (a : ℚ) (n : ℕ) (hn : 0 < n) :
    ⌊a / (n : ℚ)⌋ = ⌊a⌋ / (n : ℤ) := by
  have hnq : (0 : ℚ) < (n : ℚ) := by exact_mod_cast hn
  have hnz : (0 : ℤ) < (n : ℤ) := by exact_mod_cast hn
  have key : ∀ z : ℤ, z ≤ ⌊a / (n : ℚ)⌋ ↔ z ≤ ⌊a⌋ / (n : ℤ) := by
    intro z
    rw [Int.le_floor, le_div_iff₀ hnq, Int.le_ediv_iff_mul_le hnz,
      show ((z : ℚ) * (n : ℚ)) = (((z * (n : ℤ) : ℤ) : ℚ)) by push_cast; ring]
    exact Int.le_floor.symm
  exact le_antisymm ((key _).mp le_rfl) ((key _).mpr le_rfl)

/-- Spec-level timestamp: the start time floored to whole seconds `n`,
rendered as hours `n / 3600` (unbounded, not wrapped at 24), minutes
`n % 3600 / 60` and seconds `n % 60`, each zero-padded to two digits. -/
def timestampOfFloor (n : ℤ) : String :=
  pyFmt02 (n / 3600) ++ ":" ++ pyFmt02 (n % 3600 / 60) ++ ":" ++ pyFmt02 (n % 60)

/-- Spec-level rendering of one caption fragment:
`[HH:MM:SS] <text>` with the timestamp of the floored start time. -/
def renderLineFloor (e : Caption) : String :=
  "[" ++ timestampOfFloor ⌊e.start⌋ ++ "] " ++ e.text

lemma entry_timestamp (q : ℚ) (hq : 0 ≤ q) :
    pyInt (pyDivmod q 3600).1 = ⌊q⌋ / 3600 ∧
    pyInt (pyDivmod (pyDivmod q 3600).2 60).1 = ⌊q⌋ % 3600 / 60 ∧
    pyInt (pyDivmod (pyDivmod q 3600).2 60).2 = ⌊q⌋ % 60 := by
  have h3600 : ((3600 : ℕ) : ℚ) = (3600 : ℚ) := by norm_num
  have h60 : ((60 : ℕ) : ℚ) = (60 : ℚ) := by norm_num
  have hqdiv : (0 : ℚ) ≤ q / 3600 := by positivity
  have hfl0 : (0 : ℤ) ≤ ⌊q / (3600 : ℚ)⌋ := Int.le_floor.mpr (by exact_mod_cast hqdiv)
  have hflq : ⌊q / (3600 : ℚ)⌋ = ⌊q⌋ / 3600 := by
    rw [← h3600, floor_div_natCast q 3600 (by norm_num)]
    norm_num
  -- the remainder of the first divmod
  set r : ℚ := q - 3600 * (⌊q / (3600 : ℚ)⌋ : ℚ) with hr
  have hr0 : 0 ≤ r := by
    have := Int.floor_le (q / (3600 : ℚ))
    rw [hr]
    have h1 : (⌊q / (3600 : ℚ)⌋ : ℚ) * 3600 ≤ q := by
      rw [← le_div_iff₀ (by norm_num : (0:ℚ) < 3600)]
      exact this
    nlinarith
  have hrfloor : ⌊r⌋ = ⌊q⌋ % 3600 := by
    have h1 : r = q - ((3600 * ⌊q / (3600 : ℚ)⌋ : ℤ) : ℚ) := by
      rw [hr]; push_cast; ring
    rw [h1, Int.floor_sub_int, hflq, Int.emod_def]
  have hrdiv : (0 : ℚ) ≤ r / 60 := by positivity
  have hflr0 : (0 : ℤ) ≤ ⌊r / (60 : ℚ)⌋ := Int.le_floor.mpr (by exact_mod_cast hrdiv)
  have hflr : ⌊r / (60 : ℚ)⌋ = ⌊r⌋ / 60 := by
    rw [← h60, floor_div_natCast r 60 (by norm_num)]
    norm_num
  -- the remainder of the second divmod
  have hs0 : 0 ≤ r - 60 * (⌊r / (60 : ℚ)⌋ : ℚ) := by
    have := Int.floor_le (r / (60 : ℚ))
    have h1 : (⌊r / (60 : ℚ)⌋ : ℚ) * 60 ≤ r := by
      rw [← le_div_iff₀ (by norm_num : (0:ℚ) < 60)]
      exact this
    nlinarith
  have hsfloor : ⌊r - 60 * (⌊r / (60 : ℚ)⌋ : ℚ)⌋ = ⌊q⌋ % 60 := by
    have h1 : r - 60 * (⌊r / (60 : ℚ)⌋ : ℚ) = r - ((60 * ⌊r / (60 : ℚ)⌋ : ℤ) : ℚ) := by
      push_cast; ring
    rw [h1, Int.floor_sub_int, hflr, hrfloor, ← Int.emod_def,
      Int.emod_emod_of_dvd _ (by norm_num : (60:ℤ) ∣ 3600)]
  refine ⟨?_, ?_, ?_⟩
  · show pyInt ((⌊q / (3600 : ℚ)⌋ : ℤ) : ℚ) = ⌊q⌋ / 3600
    rw [pyInt, if_pos (by exact_mod_cast hfl0), Int.floor_intCast, hflq]
  · show pyInt ((⌊r / (60 : ℚ)⌋ : ℤ) : ℚ) = ⌊q⌋ % 3600 / 60
    rw [pyInt, if_pos (by exact_mod_cast hflr0), Int.floor_intCast, hflr, hrfloor]
  · show pyInt (r - 60 * (⌊r / (60 : ℚ)⌋ : ℤ)) = ⌊q⌋ % 60
    rw [pyInt, if_pos (by exact_mod_cast hs0)]
    exact_mod_cast hsfloor

/-- C6: for caption fragments with non-negative start times,
`format_transcript_with_timestamps` renders every fragment as
`[HH:MM:SS] <text>` with the timestamp computed from the start time floored
to whole seconds (hours unbounded), and joins the lines with newlines in the
original order. -/
theorem format_renders_floored_timestamps (ts : List Caption)
    (h : ∀ e ∈ ts, 0 ≤ e.start) :
    format_transcript_with_timestamps ts = pyJoin "\n" (ts.map renderLineFloor) := by
  unfold format_transcript_with_timestamps
  congr 1
  apply List.map_congr_left
  intro e he
  obtain ⟨h1, h2, h3⟩ := entry_timestamp e.start (h e he)
  simp only [renderLineFloor, timestampOfFloor, h1, h2, h3]

/-- Witness for C6: the example of the claim, captions `Hello` at 0 s and
`World` at 65 s. -/
theorem format_renders_floored_timestamps_witness :
    (∀ e ∈ [(⟨0, "Hello"⟩ : Caption), ⟨65, "World"⟩], 0 ≤ e.start) ∧
    format_transcript_with_timestamps [⟨0, "Hello"⟩, ⟨65, "World"⟩] =
      "[00:00:00] Hello\n[00:01:05] World" := by
  refine ⟨by decide, ?_⟩
  rw [format_renders_floored_timestamps _ (by decide)]
  norm_num [renderLineFloor, timestampOfFloor, pyFmt02, pyJoin]
  rfl

end App
namespace App

/-! ### Metadata-fetch theorems -/

/-- Counterexample for C5: with a valid credential (11 characters), an
exception raised by the HTTP request itself (for example a network
failure) propagates out of `get_video_description` instead of being
replaced by a placeholder pair. -/
theorem get_video_description_propagates :
    get_video_description (some "ABCDEFGHIJK")
        (.error "requests.exceptions.ConnectionError") =
      .error "requests.exceptions.ConnectionError" := rfl

/-- C5 (amended): `get_video_description` returns a placeholder pair on a
missing or short credential, returns a title/description value on every
delivered HTTP response, and only an exception raised by the request itself
propagates as an error. -/
theorem get_video_description_amended (cfg : Option String)
    (http : Except String HttpResponse) :
    (cfg = none →
      get_video_description cfg http = .ok ⟨"not available", "not available"⟩) ∧
    (∀ k, cfg = some k → pyLen k ≤ 10 →
      get_video_description cfg http = .ok ⟨"not available", "not available"⟩) ∧
    (∀ k, cfg = some k → 10 < pyLen k → ∀ e, http = .error e →
      get_video_description cfg http = .error e) ∧
    (∀ k, cfg = some k → 10 < pyLen k → ∀ resp, http = .ok resp →
      ∃ mi, get_video_description cfg http = .ok mi) := by
  refine ⟨?_, ?_, ?_, ?_⟩
  · intro h; subst h; rfl
  · intro k hk hlen
    subst hk
    simp [get_video_description, hlen]
  · intro k hk hlen e he
    subst hk; subst he
    simp [get_video_description, Nat.not_le.mpr hlen]
  · intro k hk hlen resp hresp
    subst hk; subst hresp
    simp only [get_video_description]
    rw [if_neg (by omega)]
    by_cases hst : resp.status_code = 200
    · rw [if_pos hst]
      match hitems : resp.items with
      | some (s :: _) => exact ⟨⟨s.title, s.description⟩, rfl⟩
      | some [] => exact ⟨⟨"NaN", "NaN"⟩, rfl⟩
      | none => exact ⟨⟨"NaN", "NaN"⟩, rfl⟩
    · rw [if_neg hst]
      exact ⟨⟨"NaN", "NaN"⟩, rfl⟩

/-- Witness for C5 (amended): the four branches at concrete inputs — no
credential; the short credential `"short"`; a valid credential with a
raised request error; a valid credential with a delivered 404 response. -/
theorem get_video_description_amended_witness :
    get_video_description none (.ok ⟨200, none⟩) =
      .ok ⟨"not available", "not available"⟩ ∧
    get_video_description (some "short") (.ok ⟨200, none⟩) =
      .ok ⟨"not available", "not available"⟩ ∧
    get_video_description (some "ABCDEFGHIJK") (.error "timeout") =
      .error "timeout" ∧
    (∃ mi, get_video_description (some "ABCDEFGHIJK") (.ok ⟨404, none⟩) =
      .ok mi) :=
  ⟨(get_video_description_amended none (.ok ⟨200, none⟩)).1 rfl,
    (get_video_description_amended (some "short") (.ok ⟨200, none⟩)).2.1
      "short" rfl (by decide),
    (get_video_description_amended (some "ABCDEFGHIJK") (.error "timeout")).2.2.1
      "ABCDEFGHIJK" rfl (by decide) "timeout" rfl,
    (get_video_description_amended (some "ABCDEFGHIJK") (.ok ⟨404, none⟩)).2.2.2
      "ABCDEFGHIJK" rfl (by decide) ⟨404, none⟩ rfl⟩

/-- C10: the placeholder pair is not a single sentinel: a missing
credential or one shorter than 11 characters yields
`"not available"/"not available"`, while a delivered response with a
non-200 status, or with an absent or empty `items` array, yields
`"NaN"/"NaN"`. -/
theorem get_video_description_two_sentinels (cfg : Option String)
    (http : Except String HttpResponse) :
    (cfg = none →
      get_video_description cfg http = .ok ⟨"not available", "not available"⟩) ∧
    (∀ k, cfg = some k → pyLen k < 11 →
      get_video_description cfg http = .ok ⟨"not available", "not available"⟩) ∧
    (∀ k resp, cfg = some k → 11 ≤ pyLen k → http = .ok resp →
      resp.status_code ≠ 200 →
      get_video_description cfg http = .ok ⟨"NaN", "NaN"⟩) ∧
    (∀ k resp, cfg = some k → 11 ≤ pyLen k → http = .ok resp →
      (resp.items = none ∨ resp.items = some []) →
      get_video_description cfg http = .ok ⟨"NaN", "NaN"⟩) := by
  refine ⟨?_, ?_, ?_, ?_⟩
  · intro h; subst h; rfl
  · intro k hk hlen
    subst hk
    simp [get_video_description, Nat.lt_succ_iff.mp hlen]
  · intro k resp hk hlen hresp hst
    subst hk; subst hresp
    simp only [get_video_description]
    rw [if_neg (by omega), if_neg hst]
  · intro k resp hk hlen hresp hitems
    subst hk; subst hresp
    simp only [get_video_description]
    rw [if_neg (by omega)]
    by_cases hst : resp.status_code = 200
    · rw [if_pos hst]
      rcases hitems with h | h <;> rw [h]
    · rw [if_neg hst]

/-- Witness for C10: the two sentinel pairs observed at concrete inputs —
a missing credential and the 10-character credential `"ABCDEFGHIJ"` give
`"not available"`, a 500 status and an empty `items` array give `"NaN"`. -/
theorem get_video_description_two_sentinels_witness :
    get_video_description none (.error "unused") =
      .ok ⟨"not available", "not available"⟩ ∧
    get_video_description (some "ABCDEFGHIJ") (.ok ⟨200, some [⟨"t", "d"⟩]⟩) =
      .ok ⟨"not available", "not available"⟩ ∧
    get_video_description (some "ABCDEFGHIJK") (.ok ⟨500, some [⟨"t", "d"⟩]⟩) =
      .ok ⟨"NaN", "NaN"⟩ ∧
    get_video_description (some "ABCDEFGHIJK") (.ok ⟨200, some []⟩) =
      .ok ⟨"NaN", "NaN"⟩ :=
  ⟨(get_video_description_two_sentinels none (.error "unused")).1 rfl,
    (get_video_description_two_sentinels (some "ABCDEFGHIJ")
        (.ok ⟨200, some [⟨"t", "d"⟩]⟩)).2.1 "ABCDEFGHIJ" rfl (by decide),
    (get_video_description_two_sentinels (some "ABCDEFGHIJK")
        (.ok ⟨500, some [⟨"t", "d"⟩]⟩)).2.2.1 "ABCDEFGHIJK" ⟨500, some [⟨"t", "d"⟩]⟩
      rfl (by decide) rfl (by decide),
    (get_video_description_two_sentinels (some "ABCDEFGHIJK")
        (.ok ⟨200, some []⟩)).2.2.2 "ABCDEFGHIJK" ⟨200, some []⟩
      rfl (by decide) rfl (Or.inr rfl)⟩

end App
namespace App

/-! ### Request-handler lemmas -/

lemma lookup_insert_self (db : List VideoRow)
    (video_id url title description transcript : String) (now : Nat) :
    get_video_from_db
        (insert_video_data db video_id url title description transcript now)
        video_id =
      some ⟨title, description, transcript⟩ := by
  unfold get_video_from_db
  rw [find?_insert_self]
  rfl

lemma format_zero_entry (text : String) :
    format_transcript_with_timestamps [⟨0, text⟩] = "[00:00:00] " ++ text := by
  simp only [format_transcript_with_timestamps, pyDivmod, pyInt, pyFmt02,
    List.map, pyJoin]
  norm_num
  rfl

lemma get_transcript_hit (db : List VideoRow) (u : ParsedUrl)
    (origUrl : String) (fetchT : Except String (List Caption))
    (cfg : Option String) (http : Except String HttpResponse) (now : Nat)
    (vid : String) (r : DBResult)
    (hvid : get_video_id u = .ok vid)
    (hhit : get_video_from_db db vid = some r) :
    get_transcript db u origUrl fetchT cfg http now = (.ok r.transcript, db) := by
  simp only [get_transcript, hvid, hhit]

lemma get_transcript_miss_success (db : List VideoRow) (u : ParsedUrl)
    (origUrl : String) (ts : List Caption) (cfg : Option String)
    (http : Except String HttpResponse) (mi : MetaInfo) (now : Nat)
    (vid : String)
    (hvid : get_video_id u = .ok vid)
    (hmiss : get_video_from_db db vid = none)
    (hmeta : get_video_description cfg http = .ok mi)
    (hlen : 500 < pyLen (format_transcript_with_timestamps ts)) :
    get_transcript db u origUrl (.ok ts) cfg http now =
      (.ok ("Title: " ++ pyStrip mi.title ++ "\n\n" ++
          (format_transcript_with_timestamps ts ++ "\nEND_OF_TRANSCRIPT")),
        insert_video_data db vid origUrl mi.title mi.description
          ("Title: " ++ pyStrip mi.title ++ "\n\n" ++
            (format_transcript_with_timestamps ts ++ "\nEND_OF_TRANSCRIPT"))
          now) := by
  simp only [get_transcript, hvid, hmiss, hmeta]
  rw [if_neg (by omega)]

/-- C1: a cache hit short-circuits — whatever the outcomes of the caption
fetch, the metadata call or the clock, the handler returns the stored
transcript verbatim and leaves the database untouched; consequently any
successful call makes a repeat of the same URL return the identical
transcript text, again leaving the database untouched. -/
theorem cache_hit_idempotent (db : List VideoRow) (u : ParsedUrl)
    (origUrl : String) (fetchT : Except String (List Caption))
    (cfg : Option String) (http : Except String HttpResponse) (now : Nat) :
    (∀ vid r, get_video_id u = .ok vid → get_video_from_db db vid = some r →
      get_transcript db u origUrl fetchT cfg http now = (.ok r.transcript, db)) ∧
    (∀ t db2, get_transcript db u origUrl fetchT cfg http now = (.ok t, db2) →
      ∀ origUrl2 fetchT2 cfg2 http2 now2,
        get_transcript db2 u origUrl2 fetchT2 cfg2 http2 now2 = (.ok t, db2)) := by
  constructor
  · intro vid r hvid hhit
    exact get_transcript_hit db u origUrl fetchT cfg http now vid r hvid hhit
  · intro t db2 hcall origUrl2 fetchT2 cfg2 http2 now2
    cases hvid : get_video_id u with
    | error e =>
        rw [get_transcript, hvid] at hcall
        simp at hcall
    | ok vid =>
        cases hhit : get_video_from_db db vid with
        | some r =>
            rw [get_transcript_hit db u origUrl fetchT cfg http now
              vid r hvid hhit] at hcall
            have ht : r.transcript = t := by
              simpa using congrArg Prod.fst hcall
            have hdb : db = db2 := by
              simpa using congrArg Prod.snd hcall
            subst ht
            subst hdb
            exact get_transcript_hit db u origUrl2 fetchT2 cfg2 http2 now2
              vid r hvid hhit
        | none =>
            cases hft : fetchT with
            | error e =>
                rw [get_transcript, hvid] at hcall
                simp only [hhit, hft] at hcall
                simp at hcall
            | ok ts =>
                cases hmeta : get_video_description cfg http with
                | error e =>
                    rw [get_transcript, hvid] at hcall
                    simp only [hhit, hft, hmeta] at hcall
                    simp at hcall
                | ok mi =>
                    by_cases hlen :
                        pyLen (format_transcript_with_timestamps ts) ≤ 500
                    · rw [get_transcript, hvid] at hcall
                      simp only [hhit, hft, hmeta] at hcall
                      rw [if_pos hlen] at hcall
                      simp at hcall
                    · rw [hft, get_transcript_miss_success db u origUrl ts
                        cfg http mi now vid hvid hhit hmeta (by omega)] at hcall
                      have ht2 : "Title: " ++ pyStrip mi.title ++ "\n\n" ++
                          (format_transcript_with_timestamps ts ++
                            "\nEND_OF_TRANSCRIPT") = t := by
                        simpa using congrArg Prod.fst hcall
                      have hdb : insert_video_data db vid origUrl mi.title
                          mi.description
                          ("Title: " ++ pyStrip mi.title ++ "\n\n" ++
                            (format_transcript_with_timestamps ts ++
                              "\nEND_OF_TRANSCRIPT")) now = db2 := by
                        simpa using congrArg Prod.snd hcall
                      subst ht2
                      subst hdb
                      exact get_transcript_hit _ u origUrl2 fetchT2 cfg2 http2
                        now2 vid ⟨mi.title, mi.description, _⟩ hvid
                        (lookup_insert_self db vid origUrl mi.title
                          mi.description _ now)

end App
namespace App

/-- A watch-style URL whose identifier is `vid01`, used for concrete runs. -/
def watchVid01 : ParsedUrl := ⟨some "www.youtube.com", "/watch", [("v", "vid01")]⟩

/-- A 600-character caption text, long enough to pass the length check. -/
def longText : String := String.mk (List.replicate 600 'a')

/-- Witness for C1: with `vid01` already stored, the handler returns the
stored transcript unchanged for any oracle outcomes (first call), and a
repeat call with entirely different oracle outcomes returns the same text
and the same database. -/
theorem cache_hit_idempotent_witness :
    get_transcript [⟨"vid01", "u", "t", "d", "stored text", 0⟩] watchVid01
        "first" (.error "no captions") (some "ABCDEFGHIJK") (.error "net down")
        3 =
      (.ok "stored text", [⟨"vid01", "u", "t", "d", "stored text", 0⟩]) ∧
    get_transcript [⟨"vid01", "u", "t", "d", "stored text", 0⟩] watchVid01
        "second" (.ok []) none (.ok ⟨200, none⟩) 9 =
      (.ok "stored text", [⟨"vid01", "u", "t", "d", "stored text", 0⟩]) := by
  have h1 := (cache_hit_idempotent [⟨"vid01", "u", "t", "d", "stored text", 0⟩]
      watchVid01 "first" (.error "no captions") (some "ABCDEFGHIJK")
      (.error "net down") 3).1 "vid01" ⟨"t", "d", "stored text"⟩ rfl rfl
  refine ⟨h1, ?_⟩
  exact (cache_hit_idempotent [⟨"vid01", "u", "t", "d", "stored text", 0⟩]
      watchVid01 "first" (.error "no captions") (some "ABCDEFGHIJK")
      (.error "net down") 3).2 "stored text"
    [⟨"vid01", "u", "t", "d", "stored text", 0⟩] h1 "second" (.ok []) none
    (.ok ⟨200, none⟩) 9

/-- C4: on a cache miss with a delivered caption list and metadata, a
formatted transcript of length at most 500 makes the request fail with the
database unchanged, while a length above 500 persists a record and returns. -/
theorem validation_boundary (db : List VideoRow) (u : ParsedUrl)
    (origUrl : String) (ts : List Caption) (cfg : Option String)
    (http : Except String HttpResponse) (mi : MetaInfo) (now : Nat)
    (vid : String)
    (hvid : get_video_id u = .ok vid)
    (hmiss : get_video_from_db db vid = none)
    (hmeta : get_video_description cfg http = .ok mi) :
    (pyLen (format_transcript_with_timestamps ts) ≤ 500 →
      get_transcript db u origUrl (.ok ts) cfg http now =
        (.error "Failed to obtain transcript: Transcript too short!", db)) ∧
    (500 < pyLen (format_transcript_with_timestamps ts) →
      ∃ out, get_transcript db u origUrl (.ok ts) cfg http now =
        (.ok out,
          insert_video_data db vid origUrl mi.title mi.description out now)) := by
  constructor
  · intro hlen
    simp only [get_transcript, hvid, hmiss, hmeta]
    rw [if_pos hlen]
  · intro hlen
    exact ⟨_, get_transcript_miss_success db u origUrl ts cfg http mi now vid
      hvid hmiss hmeta hlen⟩

set_option maxRecDepth 20000 in
/-- Witness for C4: on the empty database, the 16-character formatted
transcript of a single `Hello` caption fails with the database still empty,
while a 611-character formatted transcript is persisted. -/
theorem validation_boundary_witness :
    get_transcript [] watchVid01 "url" (.ok [⟨0, "Hello"⟩]) none
        (.error "unused") 0 =
      (.error "Failed to obtain transcript: Transcript too short!", []) ∧
    (∃ out, get_transcript [] watchVid01 "url" (.ok [⟨0, longText⟩]) none
        (.error "unused") 0 =
      (.ok out,
        insert_video_data [] "vid01" "url" "not available" "not available"
          out 0)) := by
  constructor
  · exact (validation_boundary [] watchVid01 "url" [⟨0, "Hello"⟩] none
        (.error "unused") ⟨"not available", "not available"⟩ 0 "vid01"
        rfl rfl rfl).1 (by rw [format_zero_entry]; decide)
  · exact (validation_boundary [] watchVid01 "url" [⟨0, longText⟩] none
        (.error "unused") ⟨"not available", "not available"⟩ 0 "vid01"
        rfl rfl rfl).2 (by rw [format_zero_entry]; decide)

set_option maxRecDepth 20000 in
/-- Counterexample for C3: on a concrete successful run the persisted
transcript is not the formatted body followed by the end marker alone — the
code persists `output`, which also carries the `Title:` header. -/
theorem stored_transcript_not_bare :
    (get_video_from_db
        (get_transcript [] watchVid01 "url" (.ok [⟨0, longText⟩]) none
          (.error "unused") 0).2 "vid01").map DBResult.transcript ≠
      some (format_transcript_with_timestamps [⟨0, longText⟩] ++
        "\nEND_OF_TRANSCRIPT") := by
  rw [get_transcript_miss_success [] watchVid01 "url" [⟨0, longText⟩] none
      (.error "unused") ⟨"not available", "not available"⟩ 0 "vid01" rfl rfl rfl
      (by rw [format_zero_entry]; decide)]
  dsimp only
  rw [format_zero_entry, lookup_insert_self]
  decide

/-- C3 (amended): the transcript field persisted on a successful cache-miss
run is the returned payload itself: the `Title:` header with the stripped
title, a blank line, then the formatted body followed by the end marker. -/
theorem stored_transcript_is_payload (db : List VideoRow) (u : ParsedUrl)
    (origUrl : String) (ts : List Caption) (cfg : Option String)
    (http : Except String HttpResponse) (mi : MetaInfo) (now : Nat)
    (vid : String)
    (hvid : get_video_id u = .ok vid)
    (hmiss : get_video_from_db db vid = none)
    (hmeta : get_video_description cfg http = .ok mi)
    (hlen : 500 < pyLen (format_transcript_with_timestamps ts)) :
    (get_video_from_db
        (get_transcript db u origUrl (.ok ts) cfg http now).2 vid).map
        DBResult.transcript =
      some ("Title: " ++ pyStrip mi.title ++ "\n\n" ++
        (format_transcript_with_timestamps ts ++ "\nEND_OF_TRANSCRIPT")) := by
  rw [get_transcript_miss_success db u origUrl ts cfg http mi now vid
    hvid hmiss hmeta hlen]
  dsimp only
  rw [lookup_insert_self]
  rfl

set_option maxRecDepth 20000 in
/-- Witness for C3 (amended): the concrete run of the counterexample,
showing the persisted transcript with its `Title:` header. -/
theorem stored_transcript_is_payload_witness :
    (get_video_from_db
        (get_transcript [] watchVid01 "url" (.ok [⟨0, longText⟩]) none
          (.error "unused") 0).2 "vid01").map DBResult.transcript =
      some ("Title: " ++ pyStrip "not available" ++ "\n\n" ++
        (format_transcript_with_timestamps [⟨0, longText⟩] ++
          "\nEND_OF_TRANSCRIPT")) :=
  stored_transcript_is_payload [] watchVid01 "url" [⟨0, longText⟩] none
    (.error "unused") ⟨"not available", "not available"⟩ 0 "vid01" rfl rfl rfl
    (by rw [format_zero_entry]; decide)

end App
